import Mathlib

/-!
Verification of the ai-caseworker repository: a shallow embedding in Lean 4 of
the human-in-the-loop approval workflow (step5_human_in_loop.py), the backend
API state machine (backend/app.py), the risk model wrapper (backend/models.py,
step2_ml_risk_model.py) and the explanation engine (backend/explanation.py),
together with theorems settling the specification claims.

Modelling conventions: Python floats are modelled as rationals; datetime.now()
is passed in as an explicit string parameter; raised exceptions are modelled
with Except and an inductive error type whose constructors correspond one-to-one
to the raise sites in the source; the mutable module-level lists are modelled by
explicit state passing.
-/

namespace Caseworker

/-! ## step5_human_in_loop.py -/

/-- DecisionStatus enumeration from step5_human_in_loop.py. -/
inductive DecisionStatus where
  | PENDING_APPROVAL
  | APPROVED
  | REJECTED
deriving DecidableEq, Repr

/-- Approval request record created by ApprovalWorkflow.create_approval_request:
a dictionary with AI fields, a status, and human-decision fields that start
out as None. -/
structure ApprovalRecord where
  case_id : String
  ai_recommendation : String
  ai_risk_score : ℚ
  ai_explanation : String
  status : DecisionStatus
  created_at : String
  human_decision : Option String
  officer_id : Option String
  officer_notes : Option String
  approved_at : Option String
deriving DecidableEq, Repr

/-- Errors raised by ApprovalWorkflow.process_human_approval; one constructor
per raise site, carrying the data interpolated into the ValueError message. -/
inductive WorkflowError where
  | notFound (case_id : String)
  | alreadyProcessed (case_id : String) (status : DecisionStatus)
  | invalidDecision
deriving DecidableEq, Repr

/-- ApprovalWorkflow.create_approval_request: builds the record with status
PENDING_APPROVAL and None human fields and appends it to the approval log.
Returns the new log together with the record (the Python method returns the
record and mutates self.approval_log). -/
def create_approval_request (log : List ApprovalRecord) (case_id : String)
    (ai_recommendation : String) (ai_risk_score : ℚ) (ai_explanation : String)
    (now : String) : List ApprovalRecord × ApprovalRecord :=
  let approval_request : ApprovalRecord :=
    { case_id := case_id
      ai_recommendation := ai_recommendation
      ai_risk_score := ai_risk_score
      ai_explanation := ai_explanation
      status := DecisionStatus.PENDING_APPROVAL
      created_at := now
      human_decision := none
      officer_id := none
      officer_notes := none
      approved_at := none }
  (log ++ [approval_request], approval_request)

/-- Replace the first element of the list satisfying the predicate; models the
in-place mutation of the record found by next(...) over a stored list. -/
def updateFirst {α : Type} (p : α → Bool) (f : α → α) : List α → List α
  | [] => []
  | a :: as => if p a then f a :: as else a :: updateFirst p f as

/-- ApprovalWorkflow.process_human_approval: finds the first record with the
given case_id, raises if absent, raises if its status is not PENDING_APPROVAL,
raises if the decision is not APPROVE or REJECT, otherwise stamps the human
fields, flips the status and returns the updated record. On an error the
returned log is the untouched input log, exactly as in the source where every
raise precedes the first field update. -/
def process_human_approval (log : List ApprovalRecord) (case_id : String)
    (officer_id : String) (decision : String) (officer_notes : Option String)
    (now : String) : List ApprovalRecord × Except WorkflowError ApprovalRecord :=
  match log.find? (fun a => a.case_id == case_id) with
  | none => (log, Except.error (WorkflowError.notFound case_id))
  | some approval =>
    if approval.status ≠ DecisionStatus.PENDING_APPROVAL then
      (log, Except.error (WorkflowError.alreadyProcessed case_id approval.status))
    else if ¬(decision = "APPROVE" ∨ decision = "REJECT") then
      (log, Except.error WorkflowError.invalidDecision)
    else
      let updated : ApprovalRecord :=
        { approval with
          human_decision := some decision
          officer_id := some officer_id
          officer_notes := officer_notes
          status := if decision = "APPROVE" then DecisionStatus.APPROVED
                    else DecisionStatus.REJECTED
          approved_at := some now }
      (updateFirst (fun a => a.case_id == case_id) (fun _ => updated) log,
       Except.ok updated)

/-- ApprovalWorkflow._check_decision_alignment: compares the AI recommendation
with the human decision. -/
def check_decision_alignment (ai_rec : String) (human_dec : String) : String :=
  if ai_rec = "URGENT_REVIEW" ∧ human_dec = "APPROVE" then "OVERRIDE"
  else if ai_rec = "ROUTINE_REVIEW" ∧ human_dec = "REJECT" then "OVERRIDE"
  else "ALIGNED"

/-- ApprovalWorkflow.get_pending_approvals: list comprehension filtering the
log to records whose status is PENDING_APPROVAL. -/
def get_pending_approvals (log : List ApprovalRecord) : List ApprovalRecord :=
  log.filter (fun a => a.status == DecisionStatus.PENDING_APPROVAL)

/-- ApprovalWorkflow.get_approval_history: optionally filter the log by
case_id; an empty string is falsy in Python and means no filter. -/
def get_approval_history (log : List ApprovalRecord) (case_id : Option String) :
    List ApprovalRecord :=
  match case_id with
  | some cid => if cid = "" then log else log.filter (fun a => a.case_id == cid)
  | none => log

/-! ## backend/app.py -/

/-- Entry of the module-level cases_db list: the dict form of a
CaseAnalysisResponse, to which approve_case later adds the officer fields.
The fields absent until approval are modelled as Option, initially none. -/
structure Case where
  case_id : String
  citizen_id : String
  risk_score : ℚ
  risk_level : String
  explanation : String
  recommended_action : String
  action_description : String
  timestamp : String
  status : String
  officer_id : Option String
  officer_notes : Option String
  approval_timestamp : Option String
deriving DecidableEq, Repr

/-- Entry of the module-level approvals_db list built by approve_case. -/
structure DbApproval where
  case_id : String
  officer_id : String
  decision : String
  officer_notes : Option String
  timestamp : String
  ai_recommendation : String
  ai_risk_score : ℚ
deriving DecidableEq, Repr

/-- The two module-level mutable lists of backend/app.py. -/
structure ApiState where
  cases_db : List Case
  approvals_db : List DbApproval
deriving DecidableEq, Repr

/-- HTTPException raise sites of approve_case: 404 when no case matches the
case_id, 400 when the case is no longer PENDING_APPROVAL (the detail string
interpolates the current status). -/
inductive ApiError where
  | caseNotFound
  | alreadyProcessed (current_status : String)
deriving DecidableEq, Repr

/-- HTTP status code attached to each HTTPException of approve_case. -/
def statusCode : ApiError → Nat
  | ApiError.caseNotFound => 404
  | ApiError.alreadyProcessed _ => 400

/-- Body of the ApprovalResponse returned by approve_case. -/
structure ApprovalResponse where
  case_id : String
  decision : String
  officer_id : String
  timestamp : String
  officer_notes : Option String
deriving DecidableEq, Repr

/-- POST /analyze_case: runs the risk model and explanation engine and appends
a new case with status PENDING_APPROVAL. The model and engine outputs
(risk_score, risk_level, explanation, recommended_action, action_description)
are external computations and enter as parameters; the datetime.now() strings
enter as the single parameter now. The generated case_id is
CASE_{now}_{len(cases_db)}. -/
def analyze_case (st : ApiState) (citizen_id : String) (risk_score : ℚ)
    (risk_level : String) (explanation : String) (recommended_action : String)
    (action_description : String) (now : String) : ApiState × Case :=
  let case_id := "CASE_" ++ now ++ "_" ++ toString st.cases_db.length
  let response : Case :=
    { case_id := case_id
      citizen_id := citizen_id
      risk_score := risk_score
      risk_level := risk_level
      explanation := explanation
      recommended_action := recommended_action
      action_description := action_description
      timestamp := now
      status := "PENDING_APPROVAL"
      officer_id := none
      officer_notes := none
      approval_timestamp := none }
  ({ st with cases_db := st.cases_db ++ [response] }, response)

/-- POST /approve_case: finds the first case with the given case_id (404 if
absent), rejects with 400 if its status is not PENDING_APPROVAL, otherwise
sets the status to the decision string, stamps the officer fields, and appends
an approval record. The pydantic model restricts decision to APPROVE or REJECT
before the handler runs; the handler itself performs no such check. On an
error the returned state is the untouched input state, as in the source where
both raises precede the first mutation. -/
def approve_case (st : ApiState) (case_id : String) (officer_id : String)
    (decision : String) (officer_notes : Option String) (now : String) :
    ApiState × Except ApiError ApprovalResponse :=
  match st.cases_db.find? (fun c => c.case_id == case_id) with
  | none => (st, Except.error ApiError.caseNotFound)
  | some c =>
    if c.status ≠ "PENDING_APPROVAL" then
      (st, Except.error (ApiError.alreadyProcessed c.status))
    else
      let updated : Case :=
        { c with
          status := decision
          officer_id := some officer_id
          officer_notes := officer_notes
          approval_timestamp := some now }
      let approval_record : DbApproval :=
        { case_id := case_id
          officer_id := officer_id
          decision := decision
          officer_notes := officer_notes
          timestamp := now
          ai_recommendation := c.recommended_action
          ai_risk_score := c.risk_score }
      ({ cases_db := updateFirst (fun x => x.case_id == case_id)
                       (fun _ => updated) st.cases_db
         approvals_db := st.approvals_db ++ [approval_record] },
       Except.ok
         { case_id := case_id
           decision := decision
           officer_id := officer_id
           timestamp := now
           officer_notes := officer_notes })

/-- GET /cases handler body: successive list-comprehension filters on status
and risk_level. A Python falsy filter value (absent, or the empty string)
applies no filter. -/
def get_cases (status : Option String) (risk_level : Option String)
    (db : List Case) : List Case :=
  let filtered1 :=
    match status with
    | some s => if s = "" then db else db.filter (fun c => c.status == s)
    | none => db
  match risk_level with
  | some r => if r = "" then filtered1
              else filtered1.filter (fun c => c.risk_level == r)
  | none => filtered1

/-- GET /cases as seen over HTTP. The endpoint declares only the status and
risk_level query parameters; any other query parameter supplied by the client,
such as limit, is not declared and is discarded by the framework before the
handler runs, so it cannot influence the response. -/
def handle_get_cases (status : Option String) (risk_level : Option String)
    (limit : Option Nat) (db : List Case) : List Case :=
  get_cases status risk_level db

/-! ## backend/models.py and step2_ml_risk_model.py -/

/-- np.clip with scalar bounds: values below lo are raised to lo and values
above hi are lowered to hi. -/
def npClip (x lo hi : ℚ) : ℚ := min (max x lo) hi

/-- Lexicographic comparison of character lists, by code point, matching the
string ordering numpy uses when sorting the encoder classes. -/
def charListLt : List Char → List Char → Bool
  | [], [] => false
  | [], _ :: _ => true
  | _ :: _, [] => false
  | c :: cs, d :: ds =>
    if c < d then true else if d < c then false else charListLt cs ds

/-- Lexicographic strict order on strings, by code point. -/
def strLt (x y : String) : Bool := charListLt x.data y.data

/-- Insert a string into a sorted duplicate-free list, keeping it sorted and
duplicate-free. -/
def insertUnique (x : String) : List String → List String
  | [] => [x]
  | y :: ys =>
    if x = y then y :: ys
    else if strLt x y then x :: y :: ys
    else y :: insertUnique x ys

/-- np.unique: the sorted list of the distinct values of the input, which is
what sklearn LabelEncoder.fit stores as classes. -/
def uniqueSorted (xs : List String) : List String := xs.foldr insertUnique []

/-- sklearn LabelEncoder.fit_transform: fit stores the sorted distinct values
of the input as the classes, transform maps each input to its index among the
classes. -/
def fit_transform (xs : List String) : List Nat :=
  let classes := uniqueSorted xs
  xs.map (fun x => classes.indexOf x)

/-- One row of the input dataframe of prepare_features. -/
structure CaseRow where
  income : ℚ
  last_document_update_months : ℚ
  scheme_type : String
  past_benefit_interruptions : ℕ
deriving DecidableEq, Repr

/-- WelfareRiskModel.prepare_features: refits the label encoder on the
scheme_type column of the given dataframe (fit_transform on every call) and
returns the selected feature columns, row by row, as a matrix. Identical in
backend/models.py and step2_ml_risk_model.py. -/
def prepare_features (df : List CaseRow) : List (List ℚ) :=
  let encoded := fit_transform (df.map (fun r => r.scheme_type))
  (df.zip encoded).map
    (fun p => [p.1.income, p.1.last_document_update_months,
               (p.2 : ℚ), (p.1.past_benefit_interruptions : ℚ)])

/-- WelfareRiskModel as used by predict_risk: the trained flag and the fitted
estimators; the external RandomForest predictions enter as abstract functions
of the feature matrix. -/
structure WelfareRiskModel where
  is_trained : Bool
  classifierPredict : List (List ℚ) → List String
  regressorPredict : List (List ℚ) → List ℚ
  feature_importances : List ℚ

/-- WelfareRiskModel.predict_risk: raises if the model is not trained,
otherwise returns the classifier labels, the regressor outputs clipped with
np.clip(risk_scores, 0, 100), and the classifier feature importances. -/
def predict_risk (m : WelfareRiskModel) (X : List (List ℚ)) :
    Except String (List String × List ℚ × List ℚ) :=
  if ¬m.is_trained then
    Except.error "Model must be trained before prediction!"
  else
    Except.ok (m.classifierPredict X,
               (m.regressorPredict X).map (fun s => npClip s 0 100),
               m.feature_importances)

/-! ## backend/explanation.py -/

/-- Python int() on a rational: truncation toward zero, matching the
formatting of the score inside the fallback messages. -/
def pyInt (q : ℚ) : Int := q.num.tdiv q.den

/-- ExplanationEngine._generate_mock_explanation: the deterministic fallback
message keyed purely on the score thresholds 60 and 30. The risk_level
parameter is accepted and ignored, as in the source. -/
def generate_mock_explanation (risk_score : ℚ) (risk_level : String) : String :=
  if 60 ≤ risk_score then
    s!"Your welfare case shows a high risk score ({pyInt risk_score}). Please update your documentation within 30 days. A case officer will review your file and contact you within 15 business days."
  else if 30 ≤ risk_score then
    s!"Your case shows a moderate risk score ({pyInt risk_score}). Please verify your income information is up to date. A case officer will review your application within 10 business days."
  else
    s!"Your case shows a low risk score ({pyInt risk_score}). Your application will proceed to final review. You should receive a decision within 5-7 business days."

/-- Result dictionary of ExplanationEngine.generate_explanation. -/
structure ExplanationResult where
  explanation : String
  recommended_action : String
  action_description : String
  risk_score : ℚ
  risk_level : String
deriving DecidableEq, Repr

/-- ExplanationEngine.generate_explanation. The outcome of the external Azure
OpenAI call enters as a parameter: none models a client that is unavailable or
misconfigured (SDK missing, credentials absent, or client construction failed,
each of which leaves self.client as None in __init__), some (Except.error e)
models the chat-completion call raising e, and some (Except.ok t) models a
successful completion with text t. The function uses the completion text only
on success and otherwise falls back to the mock explanation, then derives
recommended_action and action_description from the risk level. -/
def generate_explanation (client : Option (Except String String))
    (risk_score : ℚ) (risk_level : String) : ExplanationResult :=
  let explanation_text :=
    match client with
    | some (Except.ok t) => t
    | some (Except.error _) => generate_mock_explanation risk_score risk_level
    | none => generate_mock_explanation risk_score risk_level
  let ra_ad :=
    if risk_level = "high" then
      ("URGENT_REVIEW",
       "Case requires immediate officer review and citizen contact")
    else if risk_level = "medium" then
      ("STANDARD_REVIEW",
       "Case requires standard officer review and documentation update request")
    else
      ("ROUTINE_REVIEW", "Case can proceed with routine officer verification")
  { explanation := explanation_text
    recommended_action := ra_ad.1
    action_description := ra_ad.2
    risk_score := risk_score
    risk_level := risk_level }

end Caseworker

namespace Caseworker

/-! ## Claim C1 -/

/-- C1: for every approval record, _check_decision_alignment returns OVERRIDE
exactly when the (ai_recommendation, human_decision) pair is
(URGENT_REVIEW, APPROVE) or (ROUTINE_REVIEW, REJECT), and returns ALIGNED for
every other pair, including (STANDARD_REVIEW, APPROVE) and
(STANDARD_REVIEW, REJECT). -/
theorem c1_decision_alignment (r d : String) :
    (check_decision_alignment r d = "OVERRIDE" ↔
      ((r = "URGENT_REVIEW" ∧ d = "APPROVE") ∨ (r = "ROUTINE_REVIEW" ∧ d = "REJECT"))) ∧
    (check_decision_alignment r d = "ALIGNED" ↔
      ¬((r = "URGENT_REVIEW" ∧ d = "APPROVE") ∨ (r = "ROUTINE_REVIEW" ∧ d = "REJECT"))) ∧
    check_decision_alignment "STANDARD_REVIEW" "APPROVE" = "ALIGNED" ∧
    check_decision_alignment "STANDARD_REVIEW" "REJECT" = "ALIGNED" := by
  refine ⟨?_, ?_, by decide, by decide⟩ <;>
  · unfold check_decision_alignment
    split_ifs with h1 h2 <;> simp_all

/-- C1 witness: the theorem applied at the concrete pair
(URGENT_REVIEW, APPROVE). -/
theorem c1_decision_alignment_witness :
    check_decision_alignment "URGENT_REVIEW" "APPROVE" = "OVERRIDE" :=
  (c1_decision_alignment "URGENT_REVIEW" "APPROVE").1.mpr (Or.inl ⟨rfl, rfl⟩)

/-! ## Helper lemmas -/

/-- After replacing the first element satisfying p by b, with p b true, the
first element satisfying p is b (provided some element satisfied p before). -/
theorem find?_updateFirst {α : Type} (p : α → Bool) (b : α) (l : List α) (a : α)
    (h : l.find? p = some a) (hb : p b = true) :
    (updateFirst p (fun _ => b) l).find? p = some b := by
  induction l with
  | nil => simp [List.find?] at h
  | cons x xs ih =>
    by_cases hx : p x = true
    · simp [updateFirst, hx, List.find?_cons_of_pos, hb]
    · have hx' : p x = false := by simpa using hx
      rw [List.find?_cons_of_neg _ (by simp [hx'])] at h
      simpa [updateFirst, hx', List.find?_cons_of_neg] using ih h

/-- Unfolding of process_human_approval when no record matches. -/
theorem process_notFound_eq (log : List ApprovalRecord) (cid oid dec : String)
    (notes : Option String) (now : String)
    (hf : log.find? (fun a => a.case_id == cid) = none) :
    process_human_approval log cid oid dec notes now =
      (log, Except.error (WorkflowError.notFound cid)) := by
  simp only [process_human_approval, hf]

/-- Unfolding of process_human_approval when the matched record is no longer
pending. -/
theorem process_already_eq (log : List ApprovalRecord) (cid oid dec : String)
    (notes : Option String) (now : String) (a : ApprovalRecord)
    (hf : log.find? (fun x => x.case_id == cid) = some a)
    (h1 : a.status ≠ DecisionStatus.PENDING_APPROVAL) :
    process_human_approval log cid oid dec notes now =
      (log, Except.error (WorkflowError.alreadyProcessed cid a.status)) := by
  simp only [process_human_approval, hf]
  rw [if_pos h1]

/-- Unfolding of process_human_approval when the decision string is invalid. -/
theorem process_invalid_eq (log : List ApprovalRecord) (cid oid dec : String)
    (notes : Option String) (now : String) (a : ApprovalRecord)
    (hf : log.find? (fun x => x.case_id == cid) = some a)
    (h1 : a.status = DecisionStatus.PENDING_APPROVAL)
    (h2 : ¬(dec = "APPROVE" ∨ dec = "REJECT")) :
    process_human_approval log cid oid dec notes now =
      (log, Except.error WorkflowError.invalidDecision) := by
  simp only [process_human_approval, hf]
  rw [if_neg (not_not_intro h1), if_pos h2]

/-- Unfolding of process_human_approval on the success path. -/
theorem process_ok_eq (log : List ApprovalRecord) (cid oid dec : String)
    (notes : Option String) (now : String) (a : ApprovalRecord)
    (hf : log.find? (fun x => x.case_id == cid) = some a)
    (h1 : a.status = DecisionStatus.PENDING_APPROVAL)
    (h2 : dec = "APPROVE" ∨ dec = "REJECT") :
    process_human_approval log cid oid dec notes now =
      (updateFirst (fun x => x.case_id == cid)
        (fun _ => { a with
          human_decision := some dec
          officer_id := some oid
          officer_notes := notes
          status := if dec = "APPROVE" then DecisionStatus.APPROVED
                    else DecisionStatus.REJECTED
          approved_at := some now }) log,
       Except.ok { a with
          human_decision := some dec
          officer_id := some oid
          officer_notes := notes
          status := if dec = "APPROVE" then DecisionStatus.APPROVED
                    else DecisionStatus.REJECTED
          approved_at := some now }) := by
  simp only [process_human_approval, hf]
  rw [if_neg (not_not_intro h1), if_neg (not_not_intro h2)]

/-- Unfolding of approve_case when no case matches. -/
theorem approve_notFound_eq (st : ApiState) (cid oid dec : String)
    (notes : Option String) (now : String)
    (hf : st.cases_db.find? (fun c => c.case_id == cid) = none) :
    approve_case st cid oid dec notes now =
      (st, Except.error ApiError.caseNotFound) := by
  simp only [approve_case, hf]

/-- Unfolding of approve_case when the matched case is no longer pending. -/
theorem approve_already_eq (st : ApiState) (cid oid dec : String)
    (notes : Option String) (now : String) (c : Case)
    (hf : st.cases_db.find? (fun x => x.case_id == cid) = some c)
    (h1 : c.status ≠ "PENDING_APPROVAL") :
    approve_case st cid oid dec notes now =
      (st, Except.error (ApiError.alreadyProcessed c.status)) := by
  simp only [approve_case, hf]
  rw [if_pos h1]

/-- Unfolding of approve_case on the success path. -/
theorem approve_ok_eq (st : ApiState) (cid oid dec : String)
    (notes : Option String) (now : String) (c : Case)
    (hf : st.cases_db.find? (fun x => x.case_id == cid) = some c)
    (h1 : c.status = "PENDING_APPROVAL") :
    approve_case st cid oid dec notes now =
      ({ cases_db := updateFirst (fun x => x.case_id == cid)
           (fun _ => { c with
             status := dec
             officer_id := some oid
             officer_notes := notes
             approval_timestamp := some now }) st.cases_db
         approvals_db := st.approvals_db ++
           [{ case_id := cid
              officer_id := oid
              decision := dec
              officer_notes := notes
              timestamp := now
              ai_recommendation := c.recommended_action
              ai_risk_score := c.risk_score }] },
       Except.ok
         { case_id := cid
           decision := dec
           officer_id := oid
           timestamp := now
           officer_notes := notes }) := by
  simp only [approve_case, hf]
  rw [if_neg (not_not_intro h1)]

/-! ## Claim C2 -/

/-- C2: after a first successful approval on a case_id, a second call of the
approval operation on the same case_id fails with the already-processed
conflict error and leaves the stored state, hence the status, officer_id,
notes and timestamp recorded by the first call, unchanged. Stated for both
ApprovalWorkflow.process_human_approval and the POST /approve_case handler; for
the latter the pydantic pattern guarantees the first decision is APPROVE or
REJECT, which enters as a hypothesis. -/
theorem c2_second_approval_conflicts :
    (∀ (log log₁ : List ApprovalRecord) (cid o1 d1 o2 d2 : String)
       (n1 n2 : Option String) (t1 t2 : String) (r : ApprovalRecord),
      process_human_approval log cid o1 d1 n1 t1 = (log₁, Except.ok r) →
      process_human_approval log₁ cid o2 d2 n2 t2 =
          (log₁, Except.error (WorkflowError.alreadyProcessed cid r.status)) ∧
        log₁.find? (fun a => a.case_id == cid) = some r) ∧
    (∀ (st st₁ : ApiState) (cid o1 d1 o2 d2 : String) (n1 n2 : Option String)
       (t1 t2 : String) (resp : ApprovalResponse),
      (d1 = "APPROVE" ∨ d1 = "REJECT") →
      approve_case st cid o1 d1 n1 t1 = (st₁, Except.ok resp) →
      approve_case st₁ cid o2 d2 n2 t2 =
          (st₁, Except.error (ApiError.alreadyProcessed d1)) ∧
        (st₁.cases_db.find? (fun c => c.case_id == cid)).map
            (fun c => (c.status, c.officer_id, c.officer_notes,
                       c.approval_timestamp)) =
          some (d1, some o1, n1, some t1)) := by
  constructor
  · intro log log₁ cid o1 d1 o2 d2 n1 n2 t1 t2 r h
    cases hf : log.find? (fun a => a.case_id == cid) with
    | none =>
      rw [process_notFound_eq log cid o1 d1 n1 t1 hf] at h
      simp at h
    | some approval =>
      by_cases h1 : approval.status = DecisionStatus.PENDING_APPROVAL
      · by_cases h2 : d1 = "APPROVE" ∨ d1 = "REJECT"
        · rw [process_ok_eq log cid o1 d1 n1 t1 approval hf h1 h2] at h
          simp only [Prod.mk.injEq, Except.ok.injEq] at h
          obtain ⟨hlog, hr⟩ := h
          have hpa : (approval.case_id == cid) = true := by
            simpa using List.find?_some hf
          have hfind : log₁.find? (fun a => a.case_id == cid) = some r := by
            rw [← hlog, ← hr]
            exact find?_updateFirst _ _ log approval hf (by simpa using hpa)
          have hstat : r.status ≠ DecisionStatus.PENDING_APPROVAL := by
            rw [← hr]
            rcases h2 with h2 | h2 <;> simp [h2]
          exact ⟨process_already_eq log₁ cid o2 d2 n2 t2 r hfind hstat, hfind⟩
        · rw [process_invalid_eq log cid o1 d1 n1 t1 approval hf h1 h2] at h
          simp at h
      · rw [process_already_eq log cid o1 d1 n1 t1 approval hf h1] at h
        simp at h
  · intro st st₁ cid o1 d1 o2 d2 n1 n2 t1 t2 resp hd1 h
    cases hf : st.cases_db.find? (fun c => c.case_id == cid) with
    | none =>
      rw [approve_notFound_eq st cid o1 d1 n1 t1 hf] at h
      simp at h
    | some c =>
      by_cases h1 : c.status = "PENDING_APPROVAL"
      · rw [approve_ok_eq st cid o1 d1 n1 t1 c hf h1] at h
        simp only [Prod.mk.injEq, Except.ok.injEq] at h
        obtain ⟨hst, _⟩ := h
        have hpa : (c.case_id == cid) = true := by
          simpa using List.find?_some hf
        have hfind : st₁.cases_db.find? (fun x => x.case_id == cid) =
            some { c with
                   status := d1
                   officer_id := some o1
                   officer_notes := n1
                   approval_timestamp := some t1 } := by
          rw [← hst]
          exact find?_updateFirst _ _ st.cases_db c hf (by simpa using hpa)
        have hstat : ({ c with
            status := d1
            officer_id := some o1
            officer_notes := n1
            approval_timestamp := some t1 } : Case).status ≠
              "PENDING_APPROVAL" := by
          rcases hd1 with hd | hd <;> simp [hd]
        refine ⟨?_, by rw [hfind]; rfl⟩
        have := approve_already_eq st₁ cid o2 d2 n2 t2 _ hfind hstat
        simpa using this
      · rw [approve_already_eq st cid o1 d1 n1 t1 c hf h1] at h
        simp at h

/-- C2 witness: a concrete pending workflow record is approved once, then a
second call on the same case_id returns the conflict error and the log is
unchanged. -/
theorem c2_second_approval_conflicts_witness :
    process_human_approval
        [{ case_id := "C1"
           ai_recommendation := "URGENT_REVIEW"
           ai_risk_score := 75
           ai_explanation := "e"
           status := DecisionStatus.APPROVED
           created_at := "t0"
           human_decision := some "APPROVE"
           officer_id := some "O1"
           officer_notes := none
           approved_at := some "t1" }]
        "C1" "O2" "REJECT" none "t2" =
      ([{ case_id := "C1"
          ai_recommendation := "URGENT_REVIEW"
          ai_risk_score := 75
          ai_explanation := "e"
          status := DecisionStatus.APPROVED
          created_at := "t0"
          human_decision := some "APPROVE"
          officer_id := some "O1"
          officer_notes := none
          approved_at := some "t1" }],
       Except.error
         (WorkflowError.alreadyProcessed "C1" DecisionStatus.APPROVED)) :=
  (c2_second_approval_conflicts.1
    [{ case_id := "C1"
       ai_recommendation := "URGENT_REVIEW"
       ai_risk_score := 75
       ai_explanation := "e"
       status := DecisionStatus.PENDING_APPROVAL
       created_at := "t0"
       human_decision := none
       officer_id := none
       officer_notes := none
       approved_at := none }]
    [{ case_id := "C1"
       ai_recommendation := "URGENT_REVIEW"
       ai_risk_score := 75
       ai_explanation := "e"
       status := DecisionStatus.APPROVED
       created_at := "t0"
       human_decision := some "APPROVE"
       officer_id := some "O1"
       officer_notes := none
       approved_at := some "t1" }]
    "C1" "O1" "APPROVE" "O2" "REJECT" none none "t1" "t2"
    { case_id := "C1"
      ai_recommendation := "URGENT_REVIEW"
      ai_risk_score := 75
      ai_explanation := "e"
      status := DecisionStatus.APPROVED
      created_at := "t0"
      human_decision := some "APPROVE"
      officer_id := some "O1"
      officer_notes := none
      approved_at := some "t1" }
    (by rfl)).1

/-! ## Claim C10 -/

/-- C10: whenever process_human_approval raises, whether for an unknown
case_id, a record no longer in PENDING_APPROVAL, or an invalid decision
string, the approval log is returned entirely unchanged; and it raises in
exactly those three situations, the invalid-decision check preceding any
field update. -/
theorem c10_error_leaves_log_unchanged (log : List ApprovalRecord)
    (cid oid dec : String) (notes : Option String) (now : String) :
    (∀ e, (process_human_approval log cid oid dec notes now).2 = Except.error e →
      (process_human_approval log cid oid dec notes now).1 = log) ∧
    ((∃ e, (process_human_approval log cid oid dec notes now).2 = Except.error e) ↔
      (log.find? (fun a => a.case_id == cid) = none ∨
       (∃ a, log.find? (fun a => a.case_id == cid) = some a ∧
             a.status ≠ DecisionStatus.PENDING_APPROVAL) ∨
       (∃ a, log.find? (fun a => a.case_id == cid) = some a ∧
             a.status = DecisionStatus.PENDING_APPROVAL ∧
             ¬(dec = "APPROVE" ∨ dec = "REJECT")))) := by
  cases hf : log.find? (fun a => a.case_id == cid) with
  | none =>
    rw [process_notFound_eq log cid oid dec notes now hf]
    exact ⟨fun e _ => rfl, ⟨fun _ => Or.inl rfl, fun _ => ⟨_, rfl⟩⟩⟩
  | some approval =>
    by_cases h1 : approval.status = DecisionStatus.PENDING_APPROVAL
    · by_cases h2 : dec = "APPROVE" ∨ dec = "REJECT"
      · rw [process_ok_eq log cid oid dec notes now approval hf h1 h2]
        refine ⟨fun e he => by simp at he, ?_, ?_⟩
        · rintro ⟨e, he⟩
          simp at he
        · rintro (h | ⟨a, ha, hs⟩ | ⟨a, ha, _, hdec⟩)
          · exact absurd h (by simp)
          · obtain rfl : approval = a := by simpa using ha
            exact absurd h1 hs
          · exact absurd h2 hdec
      · rw [process_invalid_eq log cid oid dec notes now approval hf h1 h2]
        exact ⟨fun e _ => rfl,
          ⟨fun _ => Or.inr (Or.inr ⟨approval, rfl, h1, h2⟩), fun _ => ⟨_, rfl⟩⟩⟩
    · rw [process_already_eq log cid oid dec notes now approval hf h1]
      exact ⟨fun e _ => rfl,
        ⟨fun _ => Or.inr (Or.inl ⟨approval, rfl, h1⟩), fun _ => ⟨_, rfl⟩⟩⟩

/-- C10 witness: on the empty log every call raises (not found) and the log
comes back unchanged. -/
theorem c10_error_leaves_log_unchanged_witness :
    (process_human_approval [] "C1" "O1" "APPROVE" none "t").1 = [] :=
  (c10_error_leaves_log_unchanged [] "C1" "O1" "APPROVE" none "t").1
    (WorkflowError.notFound "C1") rfl

/-! ## Claim C3 -/

/-- C3: evaluation of backend/app.py at the failing input. Starting from the
empty state, analyze_case stores a case and approve_case with decision APPROVE
sets its status to the raw decision string APPROVE, which is none of
PENDING_APPROVAL, APPROVED or REJECTED; exactly one approval record exists for
it. Hence no reachable case ever carries status APPROVED or REJECTED, even
though the CaseAnalysisResponse status comment in step4_backend_api.py and the
DecisionStatus enumeration both name APPROVED/REJECTED as the terminal status
values, so the claim never applies to any approved or rejected case. -/
theorem c3_terminal_status_never_approved :
    ((approve_case
        (analyze_case { cases_db := [], approvals_db := [] }
          "CIT1" 75 "high" "expl" "URGENT_REVIEW" "desc" "t0").1
        "CASE_t0_0" "OFF1" "APPROVE" none "t1").1.cases_db.map
          (fun c => c.status)) = ["APPROVE"] ∧
    "APPROVE" ≠ "APPROVED" ∧ "APPROVE" ≠ "REJECTED" ∧
    "APPROVE" ≠ "PENDING_APPROVAL" ∧
    ((approve_case
        (analyze_case { cases_db := [], approvals_db := [] }
          "CIT1" 75 "high" "expl" "URGENT_REVIEW" "desc" "t0").1
        "CASE_t0_0" "OFF1" "APPROVE" none "t1").1.approvals_db.map
          (fun a => a.case_id)) = ["CASE_t0_0"] := by
  decide

/-! ## Claim C4 -/

/-- C4: whenever the external text-generation client is unavailable,
misconfigured, or raises, generate_explanation returns the deterministic
fallback message determined purely by the risk score: the high-risk template
for scores of at least 60, the moderate template for scores in [30, 60), and
the low template otherwise; the failure never propagates. -/
theorem c4_fallback_on_client_failure (client : Option (Except String String))
    (score : ℚ) (level : String)
    (h : client = none ∨ ∃ e, client = some (Except.error e)) :
    (generate_explanation client score level).explanation =
        generate_mock_explanation score level ∧
    (60 ≤ score → (generate_explanation client score level).explanation =
      s!"Your welfare case shows a high risk score ({pyInt score}). Please update your documentation within 30 days. A case officer will review your file and contact you within 15 business days.") ∧
    (30 ≤ score → score < 60 →
      (generate_explanation client score level).explanation =
      s!"Your case shows a moderate risk score ({pyInt score}). Please verify your income information is up to date. A case officer will review your application within 10 business days.") ∧
    (score < 30 → (generate_explanation client score level).explanation =
      s!"Your case shows a low risk score ({pyInt score}). Your application will proceed to final review. You should receive a decision within 5-7 business days.") := by
  have hmock : (generate_explanation client score level).explanation =
      generate_mock_explanation score level := by
    rcases h with rfl | ⟨e, rfl⟩ <;> rfl
  refine ⟨hmock, ?_, ?_, ?_⟩
  · intro h60
    rw [hmock]
    unfold generate_mock_explanation
    rw [if_pos h60]
  · intro h30 h60
    rw [hmock]
    unfold generate_mock_explanation
    rw [if_neg (not_le.mpr h60), if_pos h30]
  · intro h30
    rw [hmock]
    unfold generate_mock_explanation
    rw [if_neg (not_le.mpr (lt_trans h30 (by norm_num))),
        if_neg (not_le.mpr h30)]

/-- C4 witness: with no client configured and score 75, the high-risk fallback
text is returned. -/
theorem c4_fallback_on_client_failure_witness :
    (generate_explanation none 75 "high").explanation =
      "Your welfare case shows a high risk score (75). Please update your documentation within 30 days. A case officer will review your file and contact you within 15 business days." := by
  rw [(c4_fallback_on_client_failure none 75 "high" (Or.inl rfl)).2.1
    (by norm_num)]
  rfl

/-! ## Claim C5 -/

/-- C5: on a trained model every risk score returned by predict_risk lies in
[0, 100], and the scores are exactly the raw regressor outputs clamped to that
interval. -/
theorem c5_scores_clamped (m : WelfareRiskModel) (X : List (List ℚ))
    (levels : List String) (scores importances : List ℚ)
    (h : predict_risk m X = Except.ok (levels, scores, importances)) :
    (∀ q ∈ scores, 0 ≤ q ∧ q ≤ 100) ∧
    scores = (m.regressorPredict X).map (fun s => npClip s 0 100) := by
  unfold predict_risk at h
  by_cases ht : m.is_trained = true
  · rw [if_neg (not_not_intro ht)] at h
    simp only [Except.ok.injEq, Prod.mk.injEq] at h
    obtain ⟨-, hs, -⟩ := h
    refine ⟨?_, hs.symm⟩
    intro q hq
    rw [← hs] at hq
    simp only [List.mem_map] at hq
    obtain ⟨x, -, rfl⟩ := hq
    unfold npClip
    exact ⟨le_min (le_max_right x 0) (by norm_num), min_le_right _ _⟩
  · rw [if_pos ht] at h
    exact absurd h (by simp)

/-- C5 witness: a trained model whose regressor returns 150, -7 and 33 yields
the clamped scores 100, 0 and 33, and the theorem bounds apply to them. -/
theorem c5_scores_clamped_witness :
    predict_risk
        { is_trained := true
          classifierPredict := fun _ => []
          regressorPredict := fun _ => [150, -7, 33]
          feature_importances := [] } [] =
      Except.ok ([], [100, 0, 33], []) ∧
    (0 ≤ (100 : ℚ) ∧ (100 : ℚ) ≤ 100) :=
  ⟨by rfl,
   (c5_scores_clamped
     { is_trained := true
       classifierPredict := fun _ => []
       regressorPredict := fun _ => [150, -7, 33]
       feature_importances := [] } [] [] [100, 0, 33] [] (by rfl)).1
     100 (by simp)⟩

/-! ## Claim C6 -/

/-- C6: get_pending_approvals returns exactly the records whose status is
PENDING_APPROVAL, as a subsequence of the log (hence in insertion order), and
never a record whose status is APPROVED or REJECTED. -/
theorem c6_pending_approvals_exact (log : List ApprovalRecord) :
    (∀ a ∈ get_pending_approvals log,
      a.status = DecisionStatus.PENDING_APPROVAL) ∧
    (∀ a ∈ log, a.status = DecisionStatus.PENDING_APPROVAL →
      a ∈ get_pending_approvals log) ∧
    (get_pending_approvals log).Sublist log ∧
    (∀ a ∈ get_pending_approvals log,
      a.status ≠ DecisionStatus.APPROVED ∧
      a.status ≠ DecisionStatus.REJECTED) := by
  unfold get_pending_approvals
  refine ⟨?_, ?_, List.filter_sublist _, ?_⟩
  · intro a ha
    simpa using (List.mem_filter.mp ha).2
  · intro a ha hs
    exact List.mem_filter.mpr ⟨ha, by simp [hs]⟩
  · intro a ha
    have hs : a.status = DecisionStatus.PENDING_APPROVAL := by
      simpa using (List.mem_filter.mp ha).2
    simp [hs]

/-- C6 witness: in a log with one pending and one approved record, the pending
record is returned by get_pending_approvals. -/
theorem c6_pending_approvals_exact_witness :
    ({ case_id := "C1"
       ai_recommendation := "URGENT_REVIEW"
       ai_risk_score := 75
       ai_explanation := "e"
       status := DecisionStatus.PENDING_APPROVAL
       created_at := "t0"
       human_decision := none
       officer_id := none
       officer_notes := none
       approved_at := none } : ApprovalRecord) ∈
      get_pending_approvals
        [{ case_id := "C1"
           ai_recommendation := "URGENT_REVIEW"
           ai_risk_score := 75
           ai_explanation := "e"
           status := DecisionStatus.PENDING_APPROVAL
           created_at := "t0"
           human_decision := none
           officer_id := none
           officer_notes := none
           approved_at := none },
         { case_id := "C2"
           ai_recommendation := "ROUTINE_REVIEW"
           ai_risk_score := 10
           ai_explanation := "e2"
           status := DecisionStatus.APPROVED
           created_at := "t1"
           human_decision := some "APPROVE"
           officer_id := some "O1"
           officer_notes := none
           approved_at := some "t2" }] :=
  (c6_pending_approvals_exact _).2.1 _ (by simp) rfl

/-! ## Claim C7 -/

/-- C7: because the label encoder is refit on the input of every
prepare_features call, the encoded scheme_type feature of any single-row input
is 0 whatever the scheme is; and the encoding of a category depends on the
rest of the batch, as subsidy encodes to 0 alone but to 1 next to pension. -/
theorem c7_single_row_encodes_zero (r : CaseRow) :
    prepare_features [r] =
      [[r.income, r.last_document_update_months, 0,
        (r.past_benefit_interruptions : ℚ)]] ∧
    fit_transform ["subsidy"] = [0] ∧
    fit_transform ["pension", "subsidy"] = [0, 1] := by
  refine ⟨?_, by rfl, by rfl⟩
  have h2 : fit_transform [r.scheme_type] = [0] := by
    unfold fit_transform uniqueSorted
    simp [insertUnique, List.indexOf_cons_self]
  unfold prepare_features
  rw [show ([r].map (fun x => x.scheme_type)) = [r.scheme_type] from rfl, h2]
  simp

/-! ## Claim C8 -/

/-- C8 counterexample: with two stored pending cases and the query
/cases?limit=1, the response holds both cases; it is not truncated to at most
one entry, because the endpoint declares no limit parameter. -/
theorem c8_limit_counterexample :
    (handle_get_cases none none (some 1)
        [{ case_id := "CASE_1"
           citizen_id := "Z1"
           risk_score := 80
           risk_level := "high"
           explanation := "e1"
           recommended_action := "URGENT_REVIEW"
           action_description := "d1"
           timestamp := "t1"
           status := "PENDING_APPROVAL"
           officer_id := none
           officer_notes := none
           approval_timestamp := none },
         { case_id := "CASE_2"
           citizen_id := "Z2"
           risk_score := 20
           risk_level := "low"
           explanation := "e2"
           recommended_action := "ROUTINE_REVIEW"
           action_description := "d2"
           timestamp := "t2"
           status := "PENDING_APPROVAL"
           officer_id := none
           officer_notes := none
           approval_timestamp := none }]).length = 2 ∧
    ¬((handle_get_cases none none (some 1)
        [{ case_id := "CASE_1"
           citizen_id := "Z1"
           risk_score := 80
           risk_level := "high"
           explanation := "e1"
           recommended_action := "URGENT_REVIEW"
           action_description := "d1"
           timestamp := "t1"
           status := "PENDING_APPROVAL"
           officer_id := none
           officer_notes := none
           approval_timestamp := none },
         { case_id := "CASE_2"
           citizen_id := "Z2"
           risk_score := 20
           risk_level := "low"
           explanation := "e2"
           recommended_action := "ROUTINE_REVIEW"
           action_description := "d2"
           timestamp := "t2"
           status := "PENDING_APPROVAL"
           officer_id := none
           officer_notes := none
           approval_timestamp := none }]).length ≤ 1) :=
  ⟨rfl, by decide⟩

/-- C8 amended: GET /cases applies the status and risk_level filters and
returns the matching cases in stored order; a limit query parameter is not
declared by the endpoint, is discarded, and never truncates the response. -/
theorem c8_filters_status_and_risk_level (st rl : Option String)
    (lim : Option ℕ) (db : List Case) :
    handle_get_cases st rl lim db = get_cases st rl db ∧
    handle_get_cases st rl lim db = handle_get_cases st rl none db ∧
    (handle_get_cases st rl lim db).Sublist db ∧
    (∀ c, c ∈ handle_get_cases st rl lim db ↔
      (c ∈ db ∧ (∀ s, st = some s → s ≠ "" → c.status = s) ∧
       (∀ rv, rl = some rv → rv ≠ "" → c.risk_level = rv))) := by
  refine ⟨rfl, rfl, ?_, ?_⟩
  · rcases st with - | sv <;> rcases rl with - | rv
    · exact List.Sublist.refl db
    · show (if rv = "" then db
            else db.filter (fun c => c.risk_level == rv)).Sublist db
      by_cases hrv : rv = ""
      · rw [if_pos hrv]
      · rw [if_neg hrv]
        exact List.filter_sublist db
    · show (if sv = "" then db
            else db.filter (fun c => c.status == sv)).Sublist db
      by_cases hsv : sv = ""
      · rw [if_pos hsv]
      · rw [if_neg hsv]
        exact List.filter_sublist db
    · show (if rv = "" then
              (if sv = "" then db else db.filter (fun c => c.status == sv))
            else
              (if sv = "" then db
               else db.filter (fun c => c.status == sv)).filter
                (fun c => c.risk_level == rv)).Sublist db
      by_cases hsv : sv = "" <;> by_cases hrv : rv = "" <;>
        simp only [if_pos, if_neg, hsv, hrv, if_true, if_false]
      · exact List.Sublist.refl db
      · exact List.filter_sublist db
      · exact List.filter_sublist db
      · exact List.Sublist.trans (List.filter_sublist _)
          (List.filter_sublist db)
  · intro c
    rcases st with - | sv <;> rcases rl with - | rv
    · show c ∈ db ↔ _
      simp
    · show c ∈ (if rv = "" then db
                else db.filter (fun x => x.risk_level == rv)) ↔ _
      by_cases hrv : rv = ""
      · rw [if_pos hrv]
        simp [hrv]
      · rw [if_neg hrv]
        simp [List.mem_filter, hrv]
    · show c ∈ (if sv = "" then db
                else db.filter (fun x => x.status == sv)) ↔ _
      by_cases hsv : sv = ""
      · rw [if_pos hsv]
        simp [hsv]
      · rw [if_neg hsv]
        simp [List.mem_filter, hsv]
    · show c ∈ (if rv = "" then
                  (if sv = "" then db else db.filter (fun x => x.status == sv))
                else
                  (if sv = "" then db
                   else db.filter (fun x => x.status == sv)).filter
                    (fun x => x.risk_level == rv)) ↔ _
      by_cases hsv : sv = "" <;> by_cases hrv : rv = ""
      · rw [if_pos hrv, if_pos hsv]
        simp [hsv, hrv]
      · rw [if_neg hrv, if_pos hsv]
        simp [List.mem_filter, hsv, hrv]
      · rw [if_pos hrv, if_neg hsv]
        simp [List.mem_filter, hsv, hrv]
      · rw [if_neg hrv, if_neg hsv]
        simp [List.mem_filter, hsv, hrv]
        tauto

/-- C8 witness: the amended theorem applied to a one-case store with a status
filter and an ignored limit. -/
theorem c8_filters_status_and_risk_level_witness :
    ({ case_id := "CASE_1"
       citizen_id := "Z1"
       risk_score := 80
       risk_level := "high"
       explanation := "e1"
       recommended_action := "URGENT_REVIEW"
       action_description := "d1"
       timestamp := "t1"
       status := "PENDING_APPROVAL"
       officer_id := none
       officer_notes := none
       approval_timestamp := none } : Case) ∈
      handle_get_cases (some "PENDING_APPROVAL") none (some 5)
        [{ case_id := "CASE_1"
           citizen_id := "Z1"
           risk_score := 80
           risk_level := "high"
           explanation := "e1"
           recommended_action := "URGENT_REVIEW"
           action_description := "d1"
           timestamp := "t1"
           status := "PENDING_APPROVAL"
           officer_id := none
           officer_notes := none
           approval_timestamp := none }] :=
  ((c8_filters_status_and_risk_level (some "PENDING_APPROVAL") none
      (some 5) _).2.2.2 _).mpr
    ⟨by simp, fun s hs _ => by cases hs; rfl, fun rv hrv => by cases hrv⟩

/-! ## Claim C9 -/

/-- C9 counterexample: two create_approval_request calls with the same case_id
both succeed; after the second the workflow log holds two records with case_id
C1, so creation did not fail on the duplicate. -/
theorem c9_duplicate_create_counterexample :
    (((create_approval_request
        (create_approval_request [] "C1" "URGENT_REVIEW" 75 "e" "t0").1
        "C1" "ROUTINE_REVIEW" 10 "e2" "t1").1.map
          (fun a => a.case_id)) = ["C1", "C1"]) ∧
    ((create_approval_request
        (create_approval_request [] "C1" "URGENT_REVIEW" 75 "e" "t0").1
        "C1" "ROUTINE_REVIEW" 10 "e2" "t1").2.status =
      DecisionStatus.PENDING_APPROVAL) :=
  ⟨rfl, rfl⟩

/-- C9 amended: create_approval_request inserts a new record in state
PENDING_APPROVAL with the given fields and null human-decision fields, but
performs no uniqueness check on case_id: it never fails, and appends even when
the case_id is already present in the workflow log. -/
theorem c9_create_appends_unconditionally (log : List ApprovalRecord)
    (cid rec : String) (score : ℚ) (expl now : String) :
    (create_approval_request log cid rec score expl now).2 =
      { case_id := cid
        ai_recommendation := rec
        ai_risk_score := score
        ai_explanation := expl
        status := DecisionStatus.PENDING_APPROVAL
        created_at := now
        human_decision := none
        officer_id := none
        officer_notes := none
        approved_at := none } ∧
    (create_approval_request log cid rec score expl now).1 =
      log ++ [(create_approval_request log cid rec score expl now).2] ∧
    ((create_approval_request log cid rec score expl now).1.filter
        (fun a => a.case_id == cid)).length =
      (log.filter (fun a => a.case_id == cid)).length + 1 := by
  refine ⟨rfl, rfl, ?_⟩
  unfold create_approval_request
  simp


end Caseworker
